import Mathlib

/-!
# Verification of the dusk-uds connection-dispatch core

A shallow embedding of the repository's Rust sources:

* `src/communication.rs` — the `Task` / `Message` data model;
* `src/worker.rs`        — the worker dequeue/dispatch loop with the
  relay-token shutdown protocol;
* `src/uds.rs`           — `UnixDomainSocket::bind`, the pool lifecycle.

The per-connection unit of work (`TaskProvider` driven by `block_on`) is
external to the core; it is modelled as a function from a connection
identifier to the `Message` its completed future yields.  Stream payloads
carry no structure used by the core, so a connection is a `Nat` identifier.
-/

namespace DuskUds

/-- `Message` from `src/communication.rs`: output of the future. -/
inductive Message where
  /-- Should not receive further requests and quit after current queue. -/
  | shouldQuit
  /-- Execution with no errors. -/
  | success
deriving DecidableEq, Repr

/-- Connection identifier standing for a `UnixStream` handle. -/
abbrev Conn := Nat

/-- `Task` from `src/communication.rs`: queueable tasks. -/
inductive Task where
  /-- `Task::Message`: worker inter-communication. -/
  | message (m : Message)
  /-- `Task::Socket`: incoming socket from the UDS provider. -/
  | socket (c : Conn)
deriving DecidableEq, Repr

/-- The task provider: given the connection a worker hands it, the
completed unit of work yields a `Message` (`block_on(p)` in `worker.rs`). -/
abbrev Provider := Conn → Message

/-- What one iteration of the worker loop body in `src/worker.rs` does to
the dequeued `Task` when every `tx.send` succeeds: the list of tasks it
enqueues, and whether it executes `break`.

Mirrors the `match task` in `worker`:
* `Task::Socket(stream)`  — drive the provider; if the message is
  `ShouldQuit`, send one `Task::Message(Message::ShouldQuit)`; no break;
* `Task::Message(m) if m == Message::ShouldQuit` — send one
  `Task::Message(Message::ShouldQuit)` and break;
* `_ => ()` — nothing sent, no break. -/
def dispatch (p : Provider) : Task → List Task × Bool
  | Task.socket c =>
      if p c = Message.shouldQuit then ([Task.message Message.shouldQuit], false)
      else ([], false)
  | Task.message m =>
      if m = Message.shouldQuit then ([Task.message Message.shouldQuit], true)
      else ([], false)

/-- Outcome of one worker-loop iteration when failures are modelled.
`worker.rs` calls `.unwrap()` on the result of every `tx.send` and of
`recv`, so a failed send or a broken channel ends the thread by panic. -/
inductive WorkerOutcome where
  /-- The iteration finished and the loop dequeues the next task;
  the list records the tasks enqueued during the iteration. -/
  | continuing (sent : List Task)
  /-- The iteration executed `break`: the loop exits normally;
  the list records the tasks enqueued during the iteration. -/
  | broke (sent : List Task)
  /-- The thread panicked (an `unwrap` on an `Err`): abnormal exit;
  the list records the tasks enqueued during the iteration. -/
  | panicked (sent : List Task)
deriving DecidableEq, Repr

/-- Tasks the iteration enqueued onto the shared queue. -/
def WorkerOutcome.sent : WorkerOutcome → List Task
  | WorkerOutcome.continuing l => l
  | WorkerOutcome.broke l => l
  | WorkerOutcome.panicked l => l

/-- Whether the iteration ended the worker thread (normally via `break`
or abnormally via panic). -/
def WorkerOutcome.stops : WorkerOutcome → Bool
  | WorkerOutcome.continuing _ => false
  | WorkerOutcome.broke _ => true
  | WorkerOutcome.panicked _ => true

/-- One iteration of the worker loop body with a fallible queue sender:
`sendFails` tells whether `tx.send` returns an `Err` (all receivers
dropped).  `worker.rs` logs the send error with `error!` and then calls
`.unwrap()`, so a failed send panics the thread on either branch. -/
def dispatchF (p : Provider) (sendFails : Bool) : Task → WorkerOutcome
  | Task.socket c =>
      if p c = Message.shouldQuit then
        if sendFails then WorkerOutcome.panicked []
        else WorkerOutcome.continuing [Task.message Message.shouldQuit]
      else WorkerOutcome.continuing []
  | Task.message m =>
      if m = Message.shouldQuit then
        if sendFails then WorkerOutcome.panicked []
        else WorkerOutcome.broke [Task.message Message.shouldQuit]
      else WorkerOutcome.continuing []

/-- Result of the `recv` at the top of the worker loop. -/
inductive RecvResult where
  /-- `recv` produced a task. -/
  | got (t : Task)
  /-- `recv` returned `Err`: every sender was dropped. -/
  | disconnected
deriving DecidableEq, Repr

/-- A full worker-loop iteration in `worker.rs`: first `recv` (a broken
channel is logged and then `.unwrap()` panics the thread before any
dispatch), then the `match` on the task. -/
def workerStep (p : Provider) (sendFails : Bool) : RecvResult → WorkerOutcome
  | RecvResult.disconnected => WorkerOutcome.panicked []
  | RecvResult.got t => dispatchF p sendFails t

/-- With infallible sends, `dispatchF` agrees with `dispatch`. -/
theorem dispatchF_eq_dispatch (p : Provider) (t : Task) :
    dispatchF p false t =
      if (dispatch p t).2 then WorkerOutcome.broke (dispatch p t).1
      else WorkerOutcome.continuing (dispatch p t).1 := by
  cases t with
  | socket c =>
      by_cases h : p c = Message.shouldQuit <;> simp [dispatchF, dispatch, h]
  | message m =>
      by_cases h : m = Message.shouldQuit <;> simp [dispatchF, dispatch, h]

/-! ## Pool-level transition system

The pool is the shared `mpsc` queue plus the `workers` threads spawned in
`UnixDomainSocket::bind` (`src/uds.rs`), each running `worker`.  Because
cross-producer ordering on the queue is racy, a dequeue may observe the
pending tasks in any interleaving; the model therefore lets a consume step
pick any queue position, which over-approximates the real orderings. -/

/-- State of the worker pool: the pending queue, the number of workers
still in their loop, how many workers have exited via the `break` of the
`Task::Message(Message::ShouldQuit)` branch, and how many
`Task::Message(Message::ShouldQuit)` tasks have been dequeued so far. -/
structure PoolState where
  queue : List Task
  live : Nat
  retiredControl : Nat
  consumedControl : Nat
deriving DecidableEq, Repr

/-- A live worker dequeues the task at position `i` of the queue and runs
the `worker.rs` dispatch on it: the task leaves the queue, the tasks the
branch sends are enqueued, and if the branch executed `break` the worker
retires. -/
def consumeAt (p : Provider) (s : PoolState) (i : Nat) : PoolState :=
  match s.queue[i]? with
  | none => s
  | some t =>
      { queue := s.queue.eraseIdx i ++ (dispatch p t).1
        live := if (dispatch p t).2 then s.live - 1 else s.live
        retiredControl :=
          if (dispatch p t).2 then s.retiredControl + 1 else s.retiredControl
        consumedControl :=
          if t = Task.message Message.shouldQuit then s.consumedControl + 1
          else s.consumedControl }

/-- One transition of the pool: either a live worker consumes a pending
task (the lock around `rx` makes dequeues mutually exclusive, so steps
interleave atomically), or the listener thread of `uds.rs` accepts a
connection and enqueues it as a `Task::Socket`. -/
inductive PoolStep (p : Provider) : PoolState → PoolState → Prop
  | work (s : PoolState) (i : Nat) (hq : i < s.queue.length) (hl : 0 < s.live) :
      PoolStep p s (consumeAt p s i)
  | accept (s : PoolState) (c : Conn) :
      PoolStep p s { s with queue := s.queue ++ [Task.socket c] }

/-- Initial state of a pool of `n` workers: empty queue, nothing consumed,
nobody retired. -/
def initPool (n : Nat) : PoolState :=
  { queue := [], live := n, retiredControl := 0, consumedControl := 0 }

/-- Reachability of pool states. -/
def Reachable (p : Provider) (n : Nat) (s : PoolState) : Prop :=
  Relation.ReflTransGen (PoolStep p) (initPool n) s

/-- Exactly `k` pool transitions from `s` to `s'`. -/
def stepsTo (p : Provider) : Nat → PoolState → PoolState → Prop
  | 0, s, s' => s' = s
  | k + 1, s, s' => ∃ m, PoolStep p s m ∧ stepsTo p k m s'

/-- Number of `ShouldQuit` control tasks pending in a queue. -/
def controlCount (q : List Task) : Nat :=
  q.count (Task.message Message.shouldQuit)

/-- The join loop at the end of `UnixDomainSocket::bind` returns once
every worker thread has finished. -/
def joinAllReturns (s : PoolState) : Bool :=
  s.live = 0

/-- A consume step on the `ShouldQuit` control branch increments the
consumed and retired counters together and relays exactly one signal. -/
theorem consumeAt_control (p : Provider) (s : PoolState) (i : Nat)
    (h : s.queue[i]? = some (Task.message Message.shouldQuit)) :
    consumeAt p s i =
      { queue := s.queue.eraseIdx i ++ [Task.message Message.shouldQuit]
        live := s.live - 1
        retiredControl := s.retiredControl + 1
        consumedControl := s.consumedControl + 1 } := by
  simp [consumeAt, h, dispatch]

/-- In `dispatch` the `break` happens exactly on the `ShouldQuit` control
branch, so every pool step moves the consumed and retired counters in
lock step: their equality is preserved. -/
theorem poolStep_preserves_counters {p : Provider} {s s' : PoolState}
    (h : PoolStep p s s') (hinv : s.consumedControl = s.retiredControl) :
    s'.consumedControl = s'.retiredControl := by
  cases h with
  | accept c => exact hinv
  | work i hq hl =>
      unfold consumeAt
      cases hg : s.queue[i]? with
      | none => simpa [hg] using hinv
      | some t =>
          cases t with
          | socket c =>
              by_cases hc : p c = Message.shouldQuit <;>
                simp [hg, dispatch, hc, hinv]
          | message m =>
              cases m <;> simp [hg, dispatch, hinv]

/-- Relay conservation along every reachable state. -/
theorem reachable_counters_eq {p : Provider} {n : Nat} {s : PoolState}
    (h : Reachable p n s) : s.consumedControl = s.retiredControl := by
  induction h with
  | refl => rfl
  | tail _ hstep ih => exact poolStep_preserves_counters hstep ih

/-- One relay cycle: a worker dequeues the pending `ShouldQuit` control
task, re-emits one, and retires. -/
theorem consumeAt_relay (p : Provider) (k r c : Nat) :
    consumeAt p
        { queue := [Task.message Message.shouldQuit], live := k + 1,
          retiredControl := r, consumedControl := c } 0 =
      { queue := [Task.message Message.shouldQuit], live := k,
        retiredControl := r + 1, consumedControl := c + 1 } := by
  simp [consumeAt, dispatch, List.eraseIdx]

/-- `k` live workers facing one pending `ShouldQuit` control task drain in
exactly `k` relay cycles, leaving the re-emitted signal pending. -/
theorem relay_run (p : Provider) (k r c : Nat) :
    stepsTo p k
      { queue := [Task.message Message.shouldQuit], live := k,
        retiredControl := r, consumedControl := c }
      { queue := [Task.message Message.shouldQuit], live := 0,
        retiredControl := r + k, consumedControl := c + k } := by
  induction k generalizing r c with
  | zero => rfl
  | succ k ih =>
      refine ⟨_, PoolStep.work _ 0 (by simp) (Nat.succ_pos k), ?_⟩
      rw [consumeAt_relay]
      have h := ih (r + 1) (c + 1)
      have hr : r + 1 + k = r + (k + 1) := by omega
      have hc : c + 1 + k = c + (k + 1) := by omega
      rw [hr, hc] at h
      exact h

/-- Once no worker is live, further pool steps (only `accept` can fire)
keep the pool drained and keep every pending control task pending. -/
theorem poolStep_after_drain {p : Provider} {s s' : PoolState}
    (h : PoolStep p s s') (hl : s.live = 0) :
    s'.live = 0 ∧ controlCount s'.queue = controlCount s.queue := by
  cases h with
  | accept c => simp [controlCount, hl]
  | work i hq hlive => omega

/-- The drained configuration is absorbing: every state reachable from it
keeps zero live workers and the same number of pending control signals. -/
theorem drained_absorbing {p : Provider} {s t : PoolState}
    (h : Relation.ReflTransGen (PoolStep p) s t) (hl : s.live = 0) :
    t.live = 0 ∧ controlCount t.queue = controlCount s.queue := by
  induction h with
  | refl => exact ⟨hl, rfl⟩
  | tail _ hstep ih =>
      have h' := poolStep_after_drain hstep ih.1
      exact ⟨h'.1, h'.2.trans ih.2⟩

/-- Erasing the position that holds `a` removes exactly one occurrence of
`a` from the count. -/
theorem count_eraseIdx_add_one {α : Type} [DecidableEq α] (a : α) :
    ∀ (q : List α) (i : Nat), q[i]? = some a →
      ((q.eraseIdx i).count a) + 1 = q.count a := by
  intro q
  induction q with
  | nil => intro i h; simp at h
  | cons x xs ih =>
      intro i h
      cases i with
      | zero =>
          simp only [List.getElem?_cons_zero, Option.some_inj] at h
          subst h
          simp [List.eraseIdx, List.count_cons]
      | succ n =>
          simp only [List.getElem?_cons_succ] at h
          have hn := ih n h
          by_cases hx : a = x
          · subst hx
            simp only [List.eraseIdx_cons_succ, List.count_cons_self]
            omega
          · simp only [List.eraseIdx_cons_succ, List.count_cons_of_ne hx]
            exact hn

/-! ## The Binder: `UnixDomainSocket::bind` in `src/uds.rs`

`bind` interacts with the filesystem and the OS socket layer; those calls
are modelled by a `BindEnv` recording which of them succeed.  The function
below mirrors the control flow of `bind` step by step: the early-return
`?` operators on `remove_file`, on the `to_str` conversion and on
`UnixListener::bind`, then the spawning of `options.workers` worker
threads and the listener thread, then the join loop whose per-thread
failures are only logged (`unwrap_or_else(|e| error!(...))`), and finally
`Ok(...)`. -/

/-- `Options` from `src/options.rs`: the worker-thread count.  The field
is a plain unsigned integer; any value, including `0`, is accepted. -/
structure Options where
  workers : Nat
deriving DecidableEq, Repr

/-- Outcome of the environment interactions `bind` performs before any
thread is spawned. -/
structure BindEnv where
  /-- `self.path.as_path().exists()` -/
  pathExists : Bool
  /-- whether `fs::remove_file(self.path.as_path())` returns `Ok` -/
  removeSucceeds : Bool
  /-- whether `self.path.to_str()` returns `Some` (valid UTF-8 path) -/
  pathValidUtf8 : Bool
  /-- whether `UnixListener::bind(path)` returns `Ok` -/
  socketBindSucceeds : Bool
deriving DecidableEq, Repr

/-- The bind-time failures, in the order the code can hit them. -/
inductive BindError where
  /-- `fs::remove_file` failed (propagated by `?`). -/
  | removeFailed
  /-- `to_str` returned `None`: "Invalid path returned by the buffer". -/
  | invalidPath
  /-- `UnixListener::bind` failed (propagated by `?`). -/
  | bindFailed
deriving DecidableEq, Repr

deriving instance DecidableEq for Except

/-- Observable trace of one `bind` invocation. -/
structure BindTrace where
  /-- the `Result<(), IoError>` the caller receives -/
  result : Except BindError Unit
  /-- whether `fs::remove_file` was called -/
  removalAttempted : Bool
  /-- number of worker threads spawned -/
  workersSpawned : Nat
  /-- whether the listener thread was spawned -/
  listenerSpawned : Bool
  /-- number of worker threads joined before returning -/
  workersJoined : Nat
  /-- number of join failures logged (never propagated) -/
  joinFailuresLogged : Nat
deriving DecidableEq, Repr

/-- `UnixDomainSocket::bind` from `src/uds.rs`.  `joinPanics` records, for
each spawned worker in join order, whether its `JoinHandle::join` returns
an `Err` (the thread panicked); the join loop logs such an error and goes
on. -/
def bind (env : BindEnv) (opts : Options) (joinPanics : List Bool) : BindTrace :=
  if env.pathExists && !env.removeSucceeds then
    { result := Except.error BindError.removeFailed
      removalAttempted := true
      workersSpawned := 0, listenerSpawned := false
      workersJoined := 0, joinFailuresLogged := 0 }
  else if !env.pathValidUtf8 then
    { result := Except.error BindError.invalidPath
      removalAttempted := env.pathExists
      workersSpawned := 0, listenerSpawned := false
      workersJoined := 0, joinFailuresLogged := 0 }
  else if !env.socketBindSucceeds then
    { result := Except.error BindError.bindFailed
      removalAttempted := env.pathExists
      workersSpawned := 0, listenerSpawned := false
      workersJoined := 0, joinFailuresLogged := 0 }
  else
    { result := Except.ok ()
      removalAttempted := env.pathExists
      workersSpawned := opts.workers, listenerSpawned := true
      workersJoined := opts.workers
      joinFailuresLogged := (joinPanics.take opts.workers).count true }

/-- Whether any of the bind-time environment steps fails. -/
def setupFails (env : BindEnv) : Bool :=
  (env.pathExists && !env.removeSucceeds) || !env.pathValidUtf8 ||
    !env.socketBindSucceeds

/-- A provider whose unit of work always yields `ShouldQuit`. -/
def quitAll : Provider := fun _ => Message.shouldQuit

/-- A provider whose unit of work always yields `Success`. -/
def okAll : Provider := fun _ => Message.success

/-! ## Claims -/

/-- C1: a dequeued `Task::Message(Message::ShouldQuit)` makes the worker
enqueue exactly one new `Task::Message(Message::ShouldQuit)` and then
`break`; and the `ShouldQuit` control branch (with the relay send
succeeding) is the only way a worker-loop iteration exits normally. -/
theorem control_branch_is_the_only_normal_exit (p : Provider) (sendFails : Bool)
    (t : Task) (l : List Task) :
    dispatchF p sendFails t = WorkerOutcome.broke l ↔
      t = Task.message Message.shouldQuit ∧ sendFails = false ∧
        l = [Task.message Message.shouldQuit] := by
  constructor
  · intro h
    cases t with
    | socket c =>
        by_cases hc : p c = Message.shouldQuit <;>
          cases sendFails <;> simp_all [dispatchF]
    | message m =>
        cases m <;> cases sendFails <;> simp_all [dispatchF]
  · rintro ⟨ht, hs, hl⟩
    subst ht; subst hs; subst hl
    simp [dispatchF]

/-- C2: a `ConnectionTask` whose unit of work completes with `ShouldQuit`
makes the worker enqueue exactly one `Task::Message(Message::ShouldQuit)`
onto the same queue and continue its loop — it neither breaks nor stops
on this branch. -/
theorem socket_quit_relays_and_continues (p : Provider) (c : Conn)
    (h : p c = Message.shouldQuit) :
    dispatch p (Task.socket c) = ([Task.message Message.shouldQuit], false) ∧
      dispatchF p false (Task.socket c) =
        WorkerOutcome.continuing [Task.message Message.shouldQuit] ∧
      (dispatchF p false (Task.socket c)).stops = false := by
  refine ⟨?_, ?_, ?_⟩ <;> simp [dispatch, dispatchF, h, WorkerOutcome.stops]

/-- Witness for C2 at `quitAll` and connection `0`. -/
theorem socket_quit_relays_and_continues_witness :
    dispatch quitAll (Task.socket 0) = ([Task.message Message.shouldQuit], false) ∧
      dispatchF quitAll false (Task.socket 0) =
        WorkerOutcome.continuing [Task.message Message.shouldQuit] ∧
      (dispatchF quitAll false (Task.socket 0)).stops = false :=
  socket_quit_relays_and_continues quitAll 0 rfl

/-- C5: a `Success` outcome of a connection's unit of work enqueues
nothing and stops no worker, and a dequeued
`Task::Message(Message::Success)` falls into the `_ => ()` arm: a no-op,
the loop continues. -/
theorem work_isolation (p : Provider) (c : Conn) (sendFails : Bool)
    (h : p c = Message.success) :
    dispatch p (Task.socket c) = ([], false) ∧
      dispatchF p sendFails (Task.socket c) = WorkerOutcome.continuing [] ∧
      dispatch p (Task.message Message.success) = ([], false) ∧
      dispatchF p sendFails (Task.message Message.success) =
        WorkerOutcome.continuing [] := by
  have hne : p c ≠ Message.shouldQuit := by rw [h]; intro hx; cases hx
  refine ⟨?_, ?_, ?_, ?_⟩ <;> simp [dispatch, dispatchF, hne]

/-- Witness for C5 at `okAll`, connection `0`, with a healthy sender. -/
theorem work_isolation_witness :
    dispatch okAll (Task.socket 0) = ([], false) ∧
      dispatchF okAll false (Task.socket 0) = WorkerOutcome.continuing [] ∧
      dispatch okAll (Task.message Message.success) = ([], false) ∧
      dispatchF okAll false (Task.message Message.success) =
        WorkerOutcome.continuing [] :=
  work_isolation okAll 0 false rfl

/-- C7: when `recv` reports that no producers remain, the worker thread
ends at once (the logged error is `.unwrap()`ed, panicking the thread
before the dispatch `match` is reached): nothing further is processed and
no `ShouldQuit` control task is enqueued — a broken channel never starts
a relay. -/
theorem broken_channel_stops_without_relay (p : Provider) (sendFails : Bool) :
    workerStep p sendFails RecvResult.disconnected = WorkerOutcome.panicked [] ∧
      (workerStep p sendFails RecvResult.disconnected).stops = true ∧
      (workerStep p sendFails RecvResult.disconnected).sent = [] := by
  exact ⟨rfl, rfl, rfl⟩

/-- A pool state with one pending `ShouldQuit` control task and two live
workers, reachable after one accepted connection whose work quit. -/
def poolOneSignalTwoWorkers : PoolState :=
  { queue := [Task.message Message.shouldQuit], live := 2,
    retiredControl := 0, consumedControl := 0 }

/-- C3: relay conservation — in every reachable pool state the number of
`ShouldQuit` control tasks consumed equals the number of workers retired
through the control branch, and consuming a pending `ShouldQuit` control
task leaves the number of pending control signals unchanged (one consumed,
exactly one re-emitted) while both counters advance together. -/
theorem relay_conservation (p : Provider) (n : Nat) (s : PoolState)
    (h : Reachable p n s) :
    s.consumedControl = s.retiredControl ∧
      ∀ i, s.queue[i]? = some (Task.message Message.shouldQuit) →
        controlCount (consumeAt p s i).queue = controlCount s.queue ∧
          (consumeAt p s i).consumedControl = s.consumedControl + 1 ∧
          (consumeAt p s i).retiredControl = s.retiredControl + 1 ∧
          (dispatch p (Task.message Message.shouldQuit)).1 =
            [Task.message Message.shouldQuit] := by
  refine ⟨reachable_counters_eq h, ?_⟩
  intro i hi
  rw [consumeAt_control p s i hi]
  refine ⟨?_, rfl, rfl, rfl⟩
  show controlCount (s.queue.eraseIdx i ++ [Task.message Message.shouldQuit]) = _
  unfold controlCount
  rw [List.count_append]
  have := count_eraseIdx_add_one (Task.message Message.shouldQuit) s.queue i hi
  simpa using this

/-- Witness for C3 at a concrete reachable state holding one pending
control signal. -/
theorem relay_conservation_witness :
    poolOneSignalTwoWorkers.consumedControl =
        poolOneSignalTwoWorkers.retiredControl ∧
      controlCount (consumeAt quitAll poolOneSignalTwoWorkers 0).queue =
          controlCount poolOneSignalTwoWorkers.queue ∧
        (consumeAt quitAll poolOneSignalTwoWorkers 0).consumedControl =
            poolOneSignalTwoWorkers.consumedControl + 1 ∧
          (consumeAt quitAll poolOneSignalTwoWorkers 0).retiredControl =
              poolOneSignalTwoWorkers.retiredControl + 1 ∧
            (dispatch quitAll (Task.message Message.shouldQuit)).1 =
              [Task.message Message.shouldQuit] := by
  have hstep1 : PoolStep quitAll (initPool 2)
      { initPool 2 with queue := (initPool 2).queue ++ [Task.socket 0] } :=
    PoolStep.accept (initPool 2) 0
  have hstep2 : PoolStep quitAll
      { queue := [Task.socket 0], live := 2, retiredControl := 0,
        consumedControl := 0 }
      (consumeAt quitAll
        { queue := [Task.socket 0], live := 2, retiredControl := 0,
          consumedControl := 0 } 0) :=
    PoolStep.work _ 0 (by decide) (by decide)
  have heq : consumeAt quitAll
      { queue := [Task.socket 0], live := 2, retiredControl := 0,
        consumedControl := 0 } 0 = poolOneSignalTwoWorkers := by decide
  have hreach : Reachable quitAll 2 poolOneSignalTwoWorkers :=
    Relation.ReflTransGen.tail
      (Relation.ReflTransGen.tail Relation.ReflTransGen.refl hstep1)
      (heq ▸ hstep2)
  exact ⟨(relay_conservation quitAll 2 _ hreach).1,
    (relay_conservation quitAll 2 _ hreach).2 0 (by decide)⟩

/-- C4: injecting a single `ShouldQuit` outcome into a pool of `n` workers
drains the whole pool in `n` relay cycles (one accept step, one
connection-work step, then `n` relay steps): every worker terminates, the
join loop of `bind` returns, and the `n`-th worker's re-emitted signal
stays in the queue, unconsumed in every further reachable state. -/
theorem single_quit_drains_pool (n : Nat) (hn : 0 < n) (p : Provider)
    (c0 : Conn) (hp : p c0 = Message.shouldQuit) :
    ∃ final : PoolState,
      stepsTo p (n + 2) (initPool n) final ∧
        final.live = 0 ∧ joinAllReturns final = true ∧
          final.queue = [Task.message Message.shouldQuit] ∧
            final.retiredControl = n ∧ final.consumedControl = n ∧
              ∀ t, Relation.ReflTransGen (PoolStep p) final t →
                t.live = 0 ∧ controlCount t.queue = 1 := by
  refine ⟨{ queue := [Task.message Message.shouldQuit], live := 0,
            retiredControl := n, consumedControl := n },
    ?_, rfl, rfl, rfl, rfl, rfl, ?_⟩
  · refine ⟨_, PoolStep.accept (initPool n) c0, ?_⟩
    show stepsTo p (n + 1)
      { queue := [Task.socket c0], live := n, retiredControl := 0,
        consumedControl := 0 } _
    refine ⟨_, PoolStep.work _ 0 (by simp) hn, ?_⟩
    have h2 : consumeAt p
        { queue := [Task.socket c0], live := n, retiredControl := 0,
          consumedControl := 0 } 0 =
        { queue := [Task.message Message.shouldQuit], live := n,
          retiredControl := 0, consumedControl := 0 } := by
      simp [consumeAt, dispatch, hp]
    rw [h2]
    simpa using relay_run p n 0 0
  · intro t ht
    have h := drained_absorbing ht rfl
    exact ⟨h.1, h.2.trans rfl⟩

/-- Witness for C4: three workers, the provider that always quits,
connection `0`. -/
theorem single_quit_drains_pool_witness :
    ∃ final : PoolState,
      stepsTo quitAll (3 + 2) (initPool 3) final ∧
        final.live = 0 ∧ joinAllReturns final = true ∧
          final.queue = [Task.message Message.shouldQuit] ∧
            final.retiredControl = 3 ∧ final.consumedControl = 3 ∧
              ∀ t, Relation.ReflTransGen (PoolStep quitAll) final t →
                t.live = 0 ∧ controlCount t.queue = 1 :=
  single_quit_drains_pool 3 (by decide) quitAll 0 rfl

/-- C6 counterexample: with the queue's receivers gone, the relay send on
the `ShouldQuit` control branch fails and the worker does not merely log
and carry on — the iteration ends in a panic, not in the normal `break`
(let alone a continue), so the failure does alter control flow. -/
theorem failed_relay_send_panics_counterexample :
    dispatchF okAll true (Task.message Message.shouldQuit) =
        WorkerOutcome.panicked [] ∧
      WorkerOutcome.panicked [] ≠
          WorkerOutcome.broke [Task.message Message.shouldQuit] ∧
        WorkerOutcome.panicked [] ≠ WorkerOutcome.broke [] ∧
          WorkerOutcome.panicked [] ≠ WorkerOutcome.continuing [] := by
  decide

/-- C6 amended: a failed enqueue attempt during a shutdown relay is
logged and then `.unwrap()`ed, so the worker thread panics: the relay is
abandoned (nothing is enqueued) but the worker is very much affected — it
terminates abnormally instead of breaking or continuing normally.  The
same holds for the relay send after a `ShouldQuit` work outcome. -/
theorem failed_relay_send_panics (p : Provider) (c : Conn)
    (hp : p c = Message.shouldQuit) :
    dispatchF p true (Task.message Message.shouldQuit) =
        WorkerOutcome.panicked [] ∧
      (dispatchF p true (Task.message Message.shouldQuit)).sent = [] ∧
        (dispatchF p true (Task.message Message.shouldQuit)).stops = true ∧
          dispatchF p true (Task.socket c) = WorkerOutcome.panicked [] := by
  refine ⟨rfl, rfl, rfl, ?_⟩
  simp [dispatchF, hp]

/-- Witness for the amended C6 at `quitAll` and connection `0`. -/
theorem failed_relay_send_panics_witness :
    dispatchF quitAll true (Task.message Message.shouldQuit) =
        WorkerOutcome.panicked [] ∧
      (dispatchF quitAll true (Task.message Message.shouldQuit)).sent = [] ∧
        (dispatchF quitAll true (Task.message Message.shouldQuit)).stops = true ∧
          dispatchF quitAll true (Task.socket 0) = WorkerOutcome.panicked [] :=
  failed_relay_send_panics quitAll 0 rfl

/-- Environment in which every bind-time step succeeds and the path has
no pre-existing entry. -/
def envFresh : BindEnv :=
  { pathExists := false, removeSucceeds := true, pathValidUtf8 := true,
    socketBindSucceeds := true }

/-- Environment with a stale entry at the path whose removal succeeds. -/
def envStale : BindEnv :=
  { pathExists := true, removeSucceeds := true, pathValidUtf8 := true,
    socketBindSucceeds := true }

/-- C8: `bind` returns `Ok` only after joining every spawned worker
thread; the join outcomes (including panicked workers, which are merely
logged) never change the returned result; and an `Err` is returned only
for the bind-time failures, before any worker or listener thread exists. -/
theorem bind_return_contract (env : BindEnv) (opts : Options)
    (j j' : List Bool) :
    ((bind env opts j).result = Except.ok () →
        (bind env opts j).workersJoined = (bind env opts j).workersSpawned ∧
          (bind env opts j).workersSpawned = opts.workers) ∧
      (bind env opts j).result = (bind env opts j').result ∧
        ∀ e, (bind env opts j).result = Except.error e →
          (bind env opts j).workersSpawned = 0 ∧
            (bind env opts j).workersJoined = 0 ∧
              (bind env opts j).listenerSpawned = false := by
  unfold bind
  by_cases h1 : env.pathExists && !env.removeSucceeds <;>
    by_cases h2 : !env.pathValidUtf8 <;>
      by_cases h3 : !env.socketBindSucceeds <;>
        simp [h1, h2, h3]

/-- Witness for C8 in the fresh environment with two workers, one of
which panics at join time in `j` but not in `j'`. -/
theorem bind_return_contract_witness :
    ((bind envFresh { workers := 2 } [true, false]).result = Except.ok () →
        (bind envFresh { workers := 2 } [true, false]).workersJoined =
            (bind envFresh { workers := 2 } [true, false]).workersSpawned ∧
          (bind envFresh { workers := 2 } [true, false]).workersSpawned =
            ({ workers := 2 } : Options).workers) ∧
      (bind envFresh { workers := 2 } [true, false]).result =
          (bind envFresh { workers := 2 } [false, false]).result ∧
        ∀ e, (bind envFresh { workers := 2 } [true, false]).result =
              Except.error e →
            (bind envFresh { workers := 2 } [true, false]).workersSpawned = 0 ∧
              (bind envFresh { workers := 2 } [true, false]).workersJoined = 0 ∧
                (bind envFresh { workers := 2 } [true, false]).listenerSpawned =
                  false :=
  bind_return_contract envFresh { workers := 2 } [true, false] [false, false]

/-- C9: `fs::remove_file` is called exactly when an entry exists at the
path, and when the removal succeeds, binding over a stale entry is
observationally identical to binding a fresh path; `bind` returns an
error exactly when one of the bind-time steps (removal, UTF-8 conversion,
socket bind) fails, and in that case no worker and no listener thread
was started. -/
theorem bind_cleanup_and_failures (env : BindEnv) (opts : Options)
    (j : List Bool) :
    (bind env opts j).removalAttempted = env.pathExists ∧
      (env.removeSucceeds = true →
        (bind env opts j).result =
            (bind { env with pathExists := false } opts j).result ∧
          (bind env opts j).workersSpawned =
              (bind { env with pathExists := false } opts j).workersSpawned ∧
            (bind env opts j).listenerSpawned =
                (bind { env with pathExists := false } opts j).listenerSpawned ∧
              (bind env opts j).workersJoined =
                (bind { env with pathExists := false } opts j).workersJoined) ∧
        ((∃ e, (bind env opts j).result = Except.error e) ↔
            setupFails env = true) ∧
          (setupFails env = true →
            (bind env opts j).workersSpawned = 0 ∧
              (bind env opts j).listenerSpawned = false) := by
  obtain ⟨pe, rs, pv, sb⟩ := env
  cases pe <;> cases rs <;> cases pv <;> cases sb <;>
    simp [bind, setupFails]

/-- Witness for C9: a stale entry whose removal succeeds, one worker. -/
theorem bind_cleanup_and_failures_witness :
    (bind envStale { workers := 1 } []).removalAttempted =
        envStale.pathExists ∧
      (envStale.removeSucceeds = true →
        (bind envStale { workers := 1 } []).result =
            (bind { envStale with pathExists := false }
              { workers := 1 } []).result ∧
          (bind envStale { workers := 1 } []).workersSpawned =
              (bind { envStale with pathExists := false }
                { workers := 1 } []).workersSpawned ∧
            (bind envStale { workers := 1 } []).listenerSpawned =
                (bind { envStale with pathExists := false }
                  { workers := 1 } []).listenerSpawned ∧
              (bind envStale { workers := 1 } []).workersJoined =
                (bind { envStale with pathExists := false }
                  { workers := 1 } []).workersJoined) ∧
        ((∃ e, (bind envStale { workers := 1 } []).result = Except.error e) ↔
            setupFails envStale = true) ∧
          (setupFails envStale = true →
            (bind envStale { workers := 1 } []).workersSpawned = 0 ∧
              (bind envStale { workers := 1 } []).listenerSpawned = false) :=
  bind_cleanup_and_failures envStale { workers := 1 } []

/-- C10: with a worker count of `0` (any `usize` is accepted by
`Options`), a successful `bind` spawns no worker threads, walks an empty
join loop, and returns `Ok` right away — no shutdown signal is ever
needed. -/
theorem zero_workers_bind_returns_at_once (env : BindEnv) (j : List Bool)
    (h : setupFails env = false) :
    bind env { workers := 0 } j =
      { result := Except.ok ()
        removalAttempted := env.pathExists
        workersSpawned := 0, listenerSpawned := true
        workersJoined := 0, joinFailuresLogged := 0 } := by
  obtain ⟨pe, rs, pv, sb⟩ := env
  cases pe <;> cases rs <;> cases pv <;> cases sb <;>
    simp_all [bind, setupFails]

/-- Witness for C10 in the fresh all-success environment. -/
theorem zero_workers_bind_returns_at_once_witness :
    bind envFresh { workers := 0 } [true] =
      { result := Except.ok ()
        removalAttempted := envFresh.pathExists
        workersSpawned := 0, listenerSpawned := true
        workersJoined := 0, joinFailuresLogged := 0 } :=
  zero_workers_bind_returns_at_once envFresh [true] rfl

end DuskUds
